import Mathlib

/-!
Verification of the natural-language specification of `pytorch-to-returnn`
against a shallow embedding of its source code.

Embedded files:
* `src/pytorch_to_returnn/torch/nn/modules/rnn.py` (classes `RNNBase`, `LSTM`)
* `src/pytorch_to_returnn/converter/converter.py` (class `Converter`)

Conventions of the embedding:
* Python exceptions are modelled by the inductive `PyError`; each constructor
  carries exactly the data that the corresponding Python message interpolates,
  and `PyError.message` reproduces the Python message text.
  Python `assert` failures are modelled by `PyError.assertionError`
  (the spec's abstract `UnsupportedConfigurationError`), `ValueError`s by the
  dedicated constructors (the spec's `ConfigurationError`), `RuntimeError`s
  from shape validation by the shape constructors (the spec's `ShapeError`),
  and `numpy.testing.assert_allclose` failures by `allcloseError`
  (the spec's `NumericDivergenceError`).
* Tensors are modelled by their shape where only shapes matter (`Tensor`),
  and by shape plus flat row-major rational data where numeric comparison
  matters (`NDArr`).  Machine floats are modelled as rationals: the claims
  under study are about comparison logic and tolerances, not rounding.
* Python dict literals for RETURNN layer dicts are modelled by records with
  `Option` fields; a field is `none` exactly when the Python dict has no such
  key.  The Python key `class` is spelled `klass` and `from` is `fromName`
  (both are reserved words in Lean).
-/

set_option autoImplicit false

namespace P2R

/-- Errors raised by the embedded Python code.  Each constructor corresponds
to one `raise`/`assert` site and carries the values interpolated into the
Python error message (see `PyError.message`). -/
inductive PyError where
  /-- `ValueError` from `RNNBase.__init__` for dropout outside `[0, 1]` or a
  boolean dropout. -/
  | dropoutRangeError
  /-- `ValueError("Unrecognized RNN mode: " + mode)` from `RNNBase.__init__`. -/
  | unrecognizedMode (mode : String)
  /-- `RuntimeError` from `RNNBase.check_input` for a wrong input rank. -/
  | inputDimError (expected got : Nat)
  /-- `RuntimeError` from `RNNBase.check_input` for a wrong trailing dim. -/
  | inputSizeError (expected got : Nat)
  /-- `RuntimeError` from `RNNBase.check_hidden_size`; `tag` is `""`, `"[0]"`
  or `"[1]"` according to the message template passed by the caller. -/
  | hiddenSizeError (tag : String) (expected : Nat × Nat × Nat) (got : List Nat)
  /-- A failing Python `assert` statement. -/
  | assertionError
  /-- A failing `numpy.testing.assert_allclose`. -/
  | allcloseError
deriving DecidableEq, Repr

/-- The exact Python message text of each error. -/
def PyError.message : PyError → String
  | .dropoutRangeError =>
      "dropout should be a number in range [0, 1] representing the probability of an element being zeroed"
  | .unrecognizedMode mode => "Unrecognized RNN mode: " ++ mode
  | .inputDimError expected got =>
      s!"input must have {expected} dimensions, got {got}"
  | .inputSizeError expected got =>
      s!"input.size(-1) must be equal to input_size. Expected {expected}, got {got}"
  | .hiddenSizeError tag expected got =>
      s!"Expected hidden{tag} size {expected}, got {got}"
  | .assertionError => "AssertionError"
  | .allcloseError => "Arrays are not almost equal to desired tolerance"

/-- A traced tensor, reduced to its shape (`rnn.py` only inspects shapes). -/
structure Tensor where
  shape : List Nat
deriving DecidableEq, Repr

/-- `tensor.dim()`. -/
def Tensor.dim (t : Tensor) : Nat := t.shape.length

/-- `tensor.size(i)` for `i ≥ 0`. -/
def Tensor.sizeAt (t : Tensor) (i : Nat) : Nat := t.shape.getD i 0

/-- `tensor.size(-1)`. -/
def Tensor.sizeLast (t : Tensor) : Nat := t.shape.getLastD 0

/-- The Python value passed as the `dropout` argument: either a (real)
number or a `bool` (`bool` is a `numbers.Number` in Python, with
`False = 0`, `True = 1`, but is explicitly rejected by `RNNBase.__init__`). -/
inductive DropoutVal where
  | num (q : ℚ)
  | bool (b : Bool)
deriving DecidableEq, Repr

/-- The test `not isinstance(dropout, numbers.Number) or not 0 <= dropout <= 1
or isinstance(dropout, bool)` of `RNNBase.__init__` (restricted to number or
bool arguments). -/
def DropoutVal.invalid : DropoutVal → Bool
  | .num q => decide (q < 0) || decide (1 < q)
  | .bool _ => true

/-- `float(dropout)`. -/
def DropoutVal.toFloat : DropoutVal → ℚ
  | .num q => q
  | .bool b => if b then 1 else 0

/-- `num_directions = 2 if bidirectional else 1`. -/
def numDirections (bidirectional : Bool) : Nat := if bidirectional then 2 else 1

/-- The configuration fields stored on `self` by `RNNBase.__init__`. -/
structure RNNBase where
  mode : String
  input_size : Nat
  hidden_size : Nat
  num_layers : Nat
  bias : Bool
  batch_first : Bool
  dropout : ℚ
  bidirectional : Bool
deriving DecidableEq, Repr

/-- The `gate_size` dispatch of `RNNBase.__init__`: `some gate_size` for the
four recognized modes, `none` when the `else` branch would raise. -/
def gateSizeOfMode (mode : String) (hidden_size : Nat) : Option Nat :=
  if mode = "LSTM" then some (4 * hidden_size)
  else if mode = "GRU" then some (3 * hidden_size)
  else if mode = "RNN_TANH" then some hidden_size
  else if mode = "RNN_RELU" then some hidden_size
  else none

/-- `layer_input_size = input_size if layer == 0 else hidden_size * num_directions`. -/
def layer_input_size (input_size hidden_size num_directions layer : Nat) : Nat :=
  if layer = 0 then input_size else hidden_size * num_directions

/-- The warning text emitted by `RNNBase.__init__` for nonzero dropout with a
single layer. -/
def dropoutWarning (dropout : ℚ) (num_layers : Nat) : String :=
  s!"dropout option adds dropout after all but last recurrent layer, so non-zero dropout expects num_layers greater than 1, but got dropout={dropout} and num_layers={num_layers}"

/-- One loop iteration of `RNNBase.__init__` for a fixed `(layer, direction)`:
the parameters registered via `setattr`, as (name, shape) pairs in
registration order.  The names `weight_ih_l{}{}`/`weight_hh_l{}{}` (and the
two bias names when `bias` is set) are zipped against the tuple
`(w_ih, w_hh, b_ih, b_hh)`, so with `bias = false` only the two weight
matrices are registered. -/
def paramGroup (gate_size lis hidden_size layer direction : Nat) (bias : Bool) :
    List (String × List Nat) :=
  let suffix := if direction = 1 then "_reverse" else ""
  let shapes : List (List Nat) :=
    [[gate_size, lis], [gate_size, hidden_size], [gate_size], [gate_size]]
  let names :=
    (["weight_ih_l", "weight_hh_l"] ++
      (if bias then ["bias_ih_l", "bias_hh_l"] else [])).map
      (fun s => s ++ toString layer ++ suffix)
  names.zip shapes

/-- The result of a successful `RNNBase.__init__`: the module record, the
warnings emitted, and the registered parameters grouped per
`(layer, direction)` in loop order (mirroring `self._all_weights`, with the
shape of each registered parameter attached). -/
structure InitResult where
  module : RNNBase
  warnings : List String
  paramGroups : List (List (String × List Nat))
deriving DecidableEq, Repr

/-- `RNNBase.__init__`. -/
def RNNBase.init (mode : String) (input_size hidden_size num_layers : Nat)
    (bias batch_first : Bool) (dropout : DropoutVal) (bidirectional : Bool) :
    Except PyError InitResult :=
  let nd := numDirections bidirectional
  if dropout.invalid then
    .error .dropoutRangeError
  else
    let warns :=
      if 0 < dropout.toFloat ∧ num_layers = 1 then
        [dropoutWarning dropout.toFloat num_layers]
      else []
    match gateSizeOfMode mode hidden_size with
    | none => .error (.unrecognizedMode mode)
    | some gate_size =>
      let groups :=
        ((List.range num_layers).map (fun layer =>
          (List.range nd).map (fun direction =>
            paramGroup gate_size (layer_input_size input_size hidden_size nd layer)
              hidden_size layer direction bias))).flatten
      .ok ⟨⟨mode, input_size, hidden_size, num_layers, bias, batch_first,
            dropout.toFloat, bidirectional⟩, warns, groups⟩

/-- `LSTM.__init__` forwards to `RNNBase.__init__` with mode `'LSTM'`. -/
def LSTM.init (input_size hidden_size num_layers : Nat)
    (bias batch_first : Bool) (dropout : DropoutVal) (bidirectional : Bool) :
    Except PyError InitResult :=
  RNNBase.init "LSTM" input_size hidden_size num_layers bias batch_first dropout bidirectional

/-- `RNNBase.check_input`.  `batch_sizes` is the optional batch-size side
channel (a 1-d int tensor, modelled by its value list). -/
def RNNBase.check_input (m : RNNBase) (input : Tensor)
    (batch_sizes : Option (List Nat)) : Except PyError Unit :=
  let expected_input_dim := if batch_sizes.isSome then 2 else 3
  if input.dim ≠ expected_input_dim then
    .error (.inputDimError expected_input_dim input.dim)
  else if m.input_size ≠ input.sizeLast then
    .error (.inputSizeError m.input_size input.sizeLast)
  else .ok ()

/-- `RNNBase.get_expected_hidden_size`. -/
def RNNBase.get_expected_hidden_size (m : RNNBase) (input : Tensor)
    (batch_sizes : Option (List Nat)) : Nat × Nat × Nat :=
  let mini_batch :=
    match batch_sizes with
    | some bs => bs.headD 0
    | none => if m.batch_first then input.sizeAt 0 else input.sizeAt 1
  (m.num_layers * numDirections m.bidirectional, mini_batch, m.hidden_size)

/-- `RNNBase.check_hidden_size`; `tag` selects the message template
(`""` for the default, `"[0]"`/`"[1]"` for the LSTM overload). -/
def RNNBase.check_hidden_size (m : RNNBase) (hx : Tensor)
    (expected : Nat × Nat × Nat) (tag : String) : Except PyError Unit :=
  if hx.shape ≠ [expected.1, expected.2.1, expected.2.2] then
    .error (.hiddenSizeError tag expected hx.shape)
  else .ok ()

/-- `RNNBase.check_forward_args`. -/
def RNNBase.check_forward_args (m : RNNBase) (input hidden : Tensor)
    (batch_sizes : Option (List Nat)) : Except PyError Unit :=
  match m.check_input input batch_sizes with
  | .error e => .error e
  | .ok _ =>
      m.check_hidden_size hidden (m.get_expected_hidden_size input batch_sizes) ""

/-- `LSTM.check_forward_args`: checks the hidden/cell pair against the same
expected size, with the `hidden[0]`/`hidden[1]` message templates. -/
def LSTM.check_forward_args (m : RNNBase) (input : Tensor)
    (hidden : Tensor × Tensor) (batch_sizes : Option (List Nat)) :
    Except PyError Unit :=
  match m.check_input input batch_sizes with
  | .error e => .error e
  | .ok _ =>
      let e := m.get_expected_hidden_size input batch_sizes
      match m.check_hidden_size hidden.1 e "[0]" with
      | .error er => .error er
      | .ok _ => m.check_hidden_size hidden.2 e "[1]"

/-- A RETURNN layer dict nested inside a subnetwork (only `class`, `unit` and
`from` keys occur there in `rnn.py`). -/
structure SubLayerDict where
  klass : String
  unit : Option String
  fromName : String
deriving DecidableEq, Repr

/-- A top-level RETURNN layer dict as built by `rnn.py`; an `Option` field is
`none` exactly when the Python dict has no such key. -/
structure LayerDict where
  klass : String
  unit : Option String
  fromName : String
  n_out : Option Nat
  initial_state : Option String
  subnetwork : Option (List (String × SubLayerDict))
deriving DecidableEq, Repr

/-- `RNNBase.create_returnn_layer_dict`.  `inputName` stands for
`self._get_input_layer_name(input)`, `hx` for the optional initial-state
layer name (the base implementation ignores it). -/
def RNNBase.create_returnn_layer_dict (m : RNNBase) (inputName : String)
    (hx : Option String) : Except PyError LayerDict :=
  if m.num_layers ≠ 1 then .error .assertionError  -- assert self.num_layers == 1
  else
    .ok { klass := "rec", unit := some m.mode, fromName := inputName,
          n_out := some m.hidden_size, initial_state := none, subnetwork := none }

/-- The nested `subnetwork` dict of the multi-layer LSTM lowering:
`layer0 .. layer{n-1}` plus the terminal `output` copy node, in Python dict
insertion order. -/
def lstmSubnet (num_layers : Nat) : List (String × SubLayerDict) :=
  (List.range num_layers).map (fun i =>
    (s!"layer{i}",
      { klass := "rec", unit := some "nativelstm2",
        fromName := if i = 0 then "data" else s!"layer{i - 1}" }))
  ++ [("output", { klass := "copy", unit := none, fromName := s!"layer{num_layers - 1}" })]

/-- `LSTM.create_returnn_layer_dict`. -/
def LSTM.create_returnn_layer_dict (m : RNNBase) (inputName : String)
    (hx : Option String) : Except PyError LayerDict :=
  if m.bidirectional then .error .assertionError  -- assert not self.bidirectional
  else if 1 < m.num_layers then
    match hx with
    | some _ => .error .assertionError  -- assert hx is None
    | none =>
        .ok { klass := "subnetwork", unit := none, fromName := inputName,
              n_out := none, initial_state := none,
              subnetwork := some (lstmSubnet m.num_layers) }
  else
    .ok { klass := "rec", unit := some "nativelstm2", fromName := inputName,
          n_out := none, initial_state := hx, subnetwork := none }

/-!
Embedding of `src/pytorch_to_returnn/converter/converter.py`.

The converter orchestrates up to four passes over the user's model function
(Stage A `_run_reference`, Stage B `_run_traced_orig_torch`, Stage C
`_run_torch_returnn_drop_in`, Stage D `_run_returnn_standalone`) and
cross-checks their numeric outputs.  The numeric executions themselves
(PyTorch eager, the wrapped PyTorch run, the RETURNN/TF session runs) are
external to the converter's logic; they are modelled as fields of `ConvEnv`,
and the converter's own control flow — what is compared with what, with
which tolerances, in which order, and what state each stage reads and
writes — is transcribed below.
-/

/-- A numpy `ndarray`: a shape and flat row-major rational data. -/
structure NDArr where
  shape : List Nat
  data : List ℚ
deriving DecidableEq, Repr

/-- Row-major multi-index of flat position `k` in an array of shape `shape`. -/
def unrankIdx : List Nat → Nat → List Nat
  | [], _ => []
  | _ :: ds, k => k / ds.prod :: unrankIdx ds (k % ds.prod)

/-- Row-major flat position of multi-index `idx` in shape `shape`. -/
def rankIdx : List Nat → List Nat → Nat
  | _ :: ds, i :: js => i * ds.prod + rankIdx ds js
  | _, _ => 0

/-- `a.transpose(*axes)`: axis `axes[k]` of `a` becomes axis `k` of the
result, i.e. `result[idx] = a[j]` with `j[axes[k]] = idx[k]`. -/
def npTranspose (axes : List Nat) (a : NDArr) : NDArr :=
  let outShape := axes.map (fun p => a.shape.getD p 0)
  { shape := outShape,
    data := (List.range outShape.prod).map (fun k =>
      let m := unrankIdx outShape k
      let j := (List.range axes.length).map (fun p => m.getD (axes.indexOf p) 0)
      a.data.getD (rankIdx a.shape j) 0) }

/-- The check performed by `numpy.testing.assert_allclose(actual, desired,
rtol, atol)`: equal shapes and `|actual - desired| <= atol + rtol * |desired|`
elementwise (Boolean version). -/
def allcloseB (atol rtol : ℚ) (actual desired : NDArr) : Bool :=
  (actual.shape == desired.shape) && (actual.data.length == desired.data.length) &&
  ((List.range actual.data.length).all fun k =>
    decide (|actual.data.getD k 0 - desired.data.getD k 0| ≤
      atol + rtol * |desired.data.getD k 0|))

/-- The check performed by `numpy.testing.assert_allclose(actual, desired,
rtol, atol)`, as a proposition. -/
def AllClose (atol rtol : ℚ) (actual desired : NDArr) : Prop :=
  actual.shape = desired.shape ∧ actual.data.length = desired.data.length ∧
  ∀ k, k < actual.data.length →
    |actual.data.getD k 0 - desired.data.getD k 0| ≤
      atol + rtol * |desired.data.getD k 0|

instance (atol rtol : ℚ) (a d : NDArr) : Decidable (AllClose atol rtol a d) := by
  unfold AllClose; infer_instance

/-- `numpy.testing.assert_allclose` default relative tolerance `1e-7`
(the default absolute tolerance is `0`).  Written with `mkRat` so that it
evaluates by kernel reduction; see `defaultRtol_eq`. -/
def defaultRtol : ℚ := mkRat 1 (10 ^ 7)

/-- The absolute tolerance `atol=1e-4` passed to `assert_allclose` by
Stage C and Stage D.  Written with `mkRat` so that it evaluates by kernel
reduction; see `stageTolerance_eq`. -/
def stageTolerance : ℚ := mkRat 1 (10 ^ 4)

/-- A RETURNN net dict: layer name to layer dict. -/
abbrev NetDict := List (String × LayerDict)

/-- A saved TF checkpoint: parameter name to flat numeric values. -/
abbrev Checkpoint := List (String × List ℚ)

/-- The external executions the converter orchestrates, as observed values:
the Stage A reference output, the Stage B wrapped-run output, the Stage C
RETURNN session output together with the `AxisMapping`
(`returnn_axis_to_torch_axis`) returned at output registration, the captured
net dict, the checkpoint contents saved by Stage C, and the Stage D
standalone execution as a function of exactly the net dict and the
checkpoint (network reconstruction via `construct_from_dict` plus
`load_params_from_file` on the same fixed numeric input). -/
structure ConvEnv where
  refOut : NDArr
  wrappedOut : NDArr
  returnnOut : NDArr
  axisMap : List Nat
  netDict : NetDict
  checkpointParams : Checkpoint
  standaloneRun : NetDict → Checkpoint → NDArr

/-- The `Converter.__init__` boolean options controlling which stages run. -/
structure ConvFlags where
  use_non_wrapped_reference : Bool
  verify_with_torch : Bool
  verify_individual_model_io : Bool
  import_torch_params : Bool
  has_export_tf_checkpoint_save_path : Bool
  verify_returnn_standalone_model : Bool
deriving DecidableEq, Repr

/-- The mutable fields of a `Converter` instance written by the stages. -/
structure ConvState where
  out_ref_np : Option NDArr
  out_returnn_np : Option NDArr
  returnn_net_dict : Option NetDict
  tf_checkpoint : Option Checkpoint
deriving DecidableEq, Repr

/-- Stage A, `Converter._run_reference`: records the reference output. -/
def Converter.run_reference (env : ConvEnv) (st : ConvState) : ConvState :=
  { st with out_ref_np := some env.refOut }

/-- Stage B, `Converter._run_traced_orig_torch`: if Stage A has run, asserts
equal shapes and `numpy.testing.assert_allclose` with default tolerances
(`rtol=1e-7`, `atol=0`) against the reference; otherwise installs the
wrapped-run output as the reference. -/
def Converter.run_traced_orig_torch (env : ConvEnv) (st : ConvState) :
    Except PyError ConvState :=
  match st.out_ref_np with
  | some ref =>
      if ref.shape ≠ env.wrappedOut.shape then .error .assertionError
      else if allcloseB 0 defaultRtol ref env.wrappedOut then .ok st
      else .error .allcloseError
  | none => .ok { st with out_ref_np := some env.wrappedOut }

/-- Stage C, `Converter._run_torch_returnn_drop_in`: captures the net dict,
runs the RETURNN session, stores its raw output, transposes it with the
`AxisMapping` (`y_.transpose(*[returnn_axis_to_torch_axis[i] ...])`) and only
then, when a reference exists, compares via
`assert_allclose(ref, y_torch, atol=1e-4, rtol=0)`; finally saves a TF
checkpoint when an export path is given or Stage D is enabled. -/
def Converter.run_torch_returnn_drop_in (env : ConvEnv) (flags : ConvFlags)
    (st : ConvState) : Except PyError ConvState :=
  let st1 : ConvState :=
    { st with returnn_net_dict := some env.netDict,
              out_returnn_np := some env.returnnOut }
  let y_torch := npTranspose env.axisMap env.returnnOut
  let check : Except PyError Unit :=
    match st.out_ref_np with
    | some ref =>
        if allcloseB stageTolerance 0 ref y_torch then .ok () else .error .allcloseError
    | none => .ok ()
  match check with
  | .error e => .error e
  | .ok _ =>
      if flags.has_export_tf_checkpoint_save_path || flags.verify_returnn_standalone_model then
        .ok { st1 with tf_checkpoint := some env.checkpointParams }
      else .ok st1

/-- Stage D, `Converter._run_returnn_standalone`: reconstructs the network
from the captured net dict, loads the saved checkpoint, re-executes, and
compares via `assert_allclose(self._out_returnn_np, y_, atol=1e-4, rtol=0)`
— i.e. against Stage C's raw output, not against the Stage A/B reference. -/
def Converter.run_returnn_standalone (env : ConvEnv) (st : ConvState) :
    Except PyError ConvState :=
  match st.returnn_net_dict, st.tf_checkpoint, st.out_returnn_np with
  | some nd, some cp, some outC =>
      let y := env.standaloneRun nd cp
      if allcloseB stageTolerance 0 outC y then .ok st else .error .allcloseError
  | _, _, _ => .error .assertionError

/-- `Converter.run`: the stage sequencing of `converter.py` lines 83–90. -/
def Converter.run (env : ConvEnv) (flags : ConvFlags) : Except PyError ConvState := do
  let st0 : ConvState := ⟨none, none, none, none⟩
  let st1 := if flags.use_non_wrapped_reference then Converter.run_reference env st0 else st0
  let st2 ←
    if flags.verify_with_torch || flags.verify_individual_model_io
        || flags.import_torch_params then
      Converter.run_traced_orig_torch env st1
    else .ok st1
  let st3 ← Converter.run_torch_returnn_drop_in env flags st2
  if flags.verify_returnn_standalone_model then
    Converter.run_returnn_standalone env st3
  else .ok st3

/-!
Concrete configurations, arrays and environments used by the witness
theorems below.
-/

/-- A concrete 3-layer unidirectional LSTM configuration. -/
def lstm3 : RNNBase :=
  { mode := "LSTM", input_size := 4, hidden_size := 5, num_layers := 3,
    bias := true, batch_first := false, dropout := 0, bidirectional := false }

/-- The expected hidden-state shape of `RNNBase.get_expected_hidden_size`,
as the shape list against which `check_hidden_size` compares. -/
def expectedHiddenList (m : RNNBase) (input : Tensor) (bs : Option (List Nat)) : List Nat :=
  [(m.get_expected_hidden_size input bs).1,
   (m.get_expected_hidden_size input bs).2.1,
   (m.get_expected_hidden_size input bs).2.2]

/-- A concrete valid LSTM configuration for the C4 witness. -/
def lstm4 : RNNBase :=
  { mode := "LSTM", input_size := 4, hidden_size := 5, num_layers := 2,
    bias := true, batch_first := false, dropout := 0, bidirectional := false }

/-- The result of constructing `RNNBase('GRU', 4, 3, num_layers=2,
bias=False, bidirectional=True)`: gate size 9, two layers, two directions,
two registered weights per group (no biases), the second layer consuming
`hidden_size * num_directions = 6` features. -/
def gru2 : InitResult :=
  { module := { mode := "GRU", input_size := 4, hidden_size := 3, num_layers := 2,
                bias := false, batch_first := false, dropout := 0, bidirectional := true },
    warnings := [],
    paramGroups :=
      [[("weight_ih_l0", [9, 4]), ("weight_hh_l0", [9, 3])],
       [("weight_ih_l0_reverse", [9, 4]), ("weight_hh_l0_reverse", [9, 3])],
       [("weight_ih_l1", [9, 6]), ("weight_hh_l1", [9, 3])],
       [("weight_ih_l1_reverse", [9, 6]), ("weight_hh_l1_reverse", [9, 3])]] }

/-- A small environment builder for the converter witnesses: the Stage D
standalone execution replays `sr` while the other external outputs are
fixed arrays. -/
def mkEnv (refOut wrappedOut returnnOut : NDArr) (axisMap : List Nat)
    (sr : NetDict → Checkpoint → NDArr) : ConvEnv :=
  { refOut := refOut, wrappedOut := wrappedOut, returnnOut := returnnOut,
    axisMap := axisMap, netDict := [], checkpointParams := [],
    standaloneRun := sr }

/-- The concrete Stage C scenario of the C8 witness: the RETURNN session
returns a `[2, 1]`-shaped output whose transpose under the axis mapping
`[1, 0]` equals the `[1, 2]`-shaped reference. -/
def envC8 : ConvEnv :=
  mkEnv ⟨[1, 2], [0, 7]⟩ ⟨[], []⟩ ⟨[2, 1], [0, 7]⟩ [1, 0] (fun _ _ => ⟨[], []⟩)

/-- The concrete Stage D scenario of the C9 witness: the standalone replay
reproduces Stage C's output exactly from the net dict and checkpoint. -/
def envC9 : ConvEnv :=
  mkEnv ⟨[], []⟩ ⟨[], []⟩ ⟨[2], [3, 4]⟩ [0] (fun _ _ => ⟨[2], [3, 4]⟩)

/-- The converter state entering the C9 witness's Stage D: a net dict, a
checkpoint and Stage C's output are present, and the Stage A/B reference is
a DIFFERENT array, showing it plays no role in the Stage D comparison. -/
def stC9 : ConvState :=
  ⟨some ⟨[2], [100, 200]⟩, some ⟨[2], [3, 4]⟩, some [], some []⟩

/-!
Helper lemmas shared by the claim theorems.
-/

instance {ε α : Type} [DecidableEq ε] [DecidableEq α] : DecidableEq (Except ε α) :=
  fun a b =>
    match a, b with
    | .ok x, .ok y => decidable_of_iff (x = y) (by simp)
    | .error x, .error y => decidable_of_iff (x = y) (by simp)
    | .ok _, .error _ => isFalse (by simp)
    | .error _, .ok _ => isFalse (by simp)

/-- The Boolean and the propositional `assert_allclose` check agree. -/
theorem allcloseB_eq_true_iff (atol rtol : ℚ) (a d : NDArr) :
    allcloseB atol rtol a d = true ↔ AllClose atol rtol a d := by
  unfold allcloseB AllClose
  simp [List.all_eq_true, List.mem_range, and_assoc]

/-- The Stage C/D absolute tolerance is the spec's `1e-4`. -/
theorem stageTolerance_eq : stageTolerance = 1 / 10 ^ 4 := by
  unfold stageTolerance
  rw [Rat.mkRat_eq_div]
  norm_num

/-- The Stage B relative tolerance is numpy's default `1e-7`. -/
theorem defaultRtol_eq : defaultRtol = 1 / 10 ^ 7 := by
  unfold defaultRtol
  rw [Rat.mkRat_eq_div]
  norm_num

theorem stageTolerance_nonneg : 0 ≤ stageTolerance := by
  rw [stageTolerance_eq]
  norm_num

/-- With nonnegative tolerances, `assert_allclose` accepts identical
arrays. -/
theorem allcloseB_refl (atol rtol : ℚ) (h0 : 0 ≤ atol) (h1 : 0 ≤ rtol)
    (a : NDArr) : allcloseB atol rtol a a = true := by
  refine (allcloseB_eq_true_iff atol rtol a a).mpr ⟨rfl, rfl, ?_⟩
  intro k _
  rw [sub_self, abs_zero]
  exact add_nonneg h0 (mul_nonneg h1 (abs_nonneg _))

/-- `assert_allclose` rejects arrays of different shapes. -/
theorem allcloseB_of_shape_ne (atol rtol : ℚ) (a d : NDArr)
    (h : a.shape ≠ d.shape) : allcloseB atol rtol a d = false := by
  unfold allcloseB
  simp [h]

/-- A construction with a numeric dropout in `[0, 1]` and a recognized mode
succeeds and stores the configuration verbatim. -/
theorem RNNBase.init_ok_of_valid (mode : String) (input_size hidden_size num_layers : Nat)
    (bias batch_first : Bool) (q : ℚ) (bidirectional : Bool) (gs : Nat)
    (h0 : 0 ≤ q) (h1 : q ≤ 1)
    (hmode : gateSizeOfMode mode hidden_size = some gs) :
    ∃ r, RNNBase.init mode input_size hidden_size num_layers bias batch_first
          (.num q) bidirectional = .ok r ∧
      r.module = ⟨mode, input_size, hidden_size, num_layers, bias, batch_first,
                  q, bidirectional⟩ := by
  have hinv : DropoutVal.invalid (.num q) = false := by
    simp only [DropoutVal.invalid, Bool.or_eq_false_iff, decide_eq_false_iff_not, not_lt]
    exact ⟨h0, h1⟩
  unfold RNNBase.init
  rw [hinv]
  simp only [Bool.false_eq_true, if_false, hmode]
  exact ⟨_, rfl, rfl⟩

/-- Indexing into the flattening of a list of equal-length lists. -/
theorem flatten_getElem_eq {α : Type} (k : Nat) (ls : List (List α))
    (hl : ∀ l ∈ ls, l.length = k) (i j : Nat) (hj : j < k)
    (l : List α) (hi : ls[i]? = some l) :
    ls.flatten[i * k + j]? = l[j]? := by
  induction ls generalizing i with
  | nil => simp at hi
  | cons a as ih =>
    have ha : a.length = k := hl a (by simp)
    cases i with
    | zero =>
      have hil : a = l := by simpa using hi
      subst hil
      rw [List.flatten_cons, List.getElem?_append, if_pos (by omega)]
      simp
    | succ n =>
      have hmul : (n + 1) * k + j = k + (n * k + j) := by ring
      rw [List.flatten_cons, List.getElem?_append, if_neg (by omega)]
      have hidx : (n + 1) * k + j - a.length = n * k + j := by omega
      rw [hidx]
      exact ih (fun x hx => hl x (by simp [hx])) n (by simpa using hi)

/-!
The claims.
-/

/-- C1: the claim says the single-layer unidirectional lowering yields one
`rec` node "whose declared width field n_out equals the configured
hidden_size", with unit `nativelstm2` for the LSTM mode; the spec's concrete
scenario expects `n_out=32` for `LSTM(input_size=16, hidden_size=32)`.
Evaluated at exactly that configuration, the LSTM lowering yields a `rec`
node with unit `nativelstm2` but with NO `n_out` key at all — while the
base-class lowering it overrides does declare `n_out = hidden_size`.  The
claim (and spec) describe the intended behavior; the LSTM override dropped
the `n_out` declaration. -/
theorem C1_lstm_lowering_omits_n_out :
    LSTM.create_returnn_layer_dict
        { mode := "LSTM", input_size := 16, hidden_size := 32, num_layers := 1,
          bias := true, batch_first := false, dropout := 0, bidirectional := false }
        "data" none
      = .ok { klass := "rec", unit := some "nativelstm2", fromName := "data",
              n_out := none, initial_state := none, subnetwork := none } ∧
    RNNBase.create_returnn_layer_dict
        { mode := "LSTM", input_size := 16, hidden_size := 32, num_layers := 1,
          bias := true, batch_first := false, dropout := 0, bidirectional := false }
        "data" none
      = .ok { klass := "rec", unit := some "LSTM", fromName := "data",
              n_out := some 32, initial_state := none, subnetwork := none } := by
  exact ⟨by decide, by decide⟩

/-- C3 (counterexample): a bidirectional single-layer base recurrent module
(mode `"GRU"`, constructible since the mode dispatch accepts it) is both
constructed successfully and LOWERED successfully by
`RNNBase.create_returnn_layer_dict`, producing a single unidirectional `rec`
node — so it is not the case that every bidirectional recurrent
configuration fails at lowering: the base lowering silently drops the
reverse direction. -/
theorem C3_base_lowering_accepts_bidirectional :
    (RNNBase.init "GRU" 4 5 1 true false (.num 0) true).isOk = true ∧
    RNNBase.create_returnn_layer_dict
        { mode := "GRU", input_size := 4, hidden_size := 5, num_layers := 1,
          bias := true, batch_first := false, dropout := 0, bidirectional := true }
        "data" none
      = .ok { klass := "rec", unit := some "GRU", fromName := "data",
              n_out := some 5, initial_state := none, subnetwork := none } := by
  exact ⟨by decide, by decide⟩

/-- C3 (amended): every bidirectional configuration lowered through the LSTM
lowering fails with the assertion error (`assert not self.bidirectional`, the
spec's `UnsupportedConfigurationError`) rather than producing a node, and
constructing a module with `bidirectional=True` and otherwise valid
arguments does not fail — the rejection happens at lowering.  (The generic
base-class lowering performs no such check; see the counterexample.) -/
theorem C3_lstm_lowering_rejects_bidirectional
    (m : RNNBase) (inputName : String) (hx : Option String)
    (mode : String) (input_size hidden_size num_layers : Nat)
    (bias batch_first : Bool) (q : ℚ) (gs : Nat)
    (hb : m.bidirectional = true)
    (h0 : 0 ≤ q) (h1 : q ≤ 1)
    (hmode : gateSizeOfMode mode hidden_size = some gs) :
    LSTM.create_returnn_layer_dict m inputName hx = .error .assertionError ∧
    ∃ r, RNNBase.init mode input_size hidden_size num_layers bias batch_first
          (.num q) true = .ok r ∧ r.module.bidirectional = true := by
  constructor
  · unfold LSTM.create_returnn_layer_dict
    rw [hb]
    simp
  · obtain ⟨r, hr, hrm⟩ := RNNBase.init_ok_of_valid mode input_size hidden_size
      num_layers bias batch_first q true gs h0 h1 hmode
    exact ⟨r, hr, by rw [hrm]⟩

/-- C3 witness: the theorem applied at a concrete bidirectional LSTM
configuration. -/
theorem C3_lstm_lowering_rejects_bidirectional_witness :
    (RNNBase.mk "LSTM" 4 5 1 true false 0 true).bidirectional = true ∧
    (0 : ℚ) ≤ 1 / 2 ∧ (1 / 2 : ℚ) ≤ 1 ∧
    gateSizeOfMode "LSTM" 5 = some 20 ∧
    (LSTM.create_returnn_layer_dict (RNNBase.mk "LSTM" 4 5 1 true false 0 true)
        "in0" none = .error .assertionError ∧
     ∃ r, RNNBase.init "LSTM" 4 5 1 true false (.num (1 / 2)) true = .ok r ∧
       r.module.bidirectional = true) := by
  exact ⟨rfl, by norm_num, by norm_num, by decide,
    C3_lstm_lowering_rejects_bidirectional
      (RNNBase.mk "LSTM" 4 5 1 true false 0 true) "in0" none
      "LSTM" 4 5 1 true false (1 / 2) 20 rfl (by norm_num) (by norm_num) (by decide)⟩

/-- C2: for every multi-layer (`num_layers > 1`) unidirectional LSTM
configuration, lowering with an explicit initial state is rejected
(`assert hx is None`, the spec's `UnsupportedConfigurationError`), and
lowering without one yields a single `subnetwork` node consuming the input,
whose nested network has exactly `num_layers + 1` entries: rec nodes
`layer{i}` with unit `nativelstm2`, where `layer0` consumes the
subnetwork's own input `"data"` and each `layer{i}` for `i > 0` consumes
`layer{i-1}`, plus the terminal alias entry `output` of class `copy`
consuming the last layer. -/
theorem C2_multilayer_lowering (m : RNNBase) (inputName : String)
    (hb : m.bidirectional = false) (hn : 1 < m.num_layers) :
    (∀ s, LSTM.create_returnn_layer_dict m inputName (some s) = .error .assertionError) ∧
    ∃ sub, LSTM.create_returnn_layer_dict m inputName none
        = .ok { klass := "subnetwork", unit := none, fromName := inputName,
                n_out := none, initial_state := none, subnetwork := some sub } ∧
      sub.length = m.num_layers + 1 ∧
      (∀ i, i < m.num_layers → sub[i]? = some (s!"layer{i}",
          { klass := "rec", unit := some "nativelstm2",
            fromName := if i = 0 then "data" else s!"layer{i - 1}" })) ∧
      sub[m.num_layers]? = some ("output",
          { klass := "copy", unit := none, fromName := s!"layer{m.num_layers - 1}" }) := by
  constructor
  · intro s
    unfold LSTM.create_returnn_layer_dict
    rw [hb]
    simp [hn]
  · refine ⟨lstmSubnet m.num_layers, ?_, ?_, ?_, ?_⟩
    · unfold LSTM.create_returnn_layer_dict
      rw [hb]
      simp [hn]
    · unfold lstmSubnet
      simp
    · intro i hi
      unfold lstmSubnet
      rw [List.getElem?_append, if_pos (by simpa using hi), List.getElem?_map,
        List.getElem?_range hi]
      rfl
    · unfold lstmSubnet
      rw [List.getElem?_append, if_neg (by simp)]
      simp


/-- C2 witness: the theorem applied at the concrete 3-layer configuration,
together with the fully evaluated nested network. -/
theorem C2_multilayer_lowering_witness :
    lstm3.bidirectional = false ∧ 1 < lstm3.num_layers ∧
    ((∀ s, LSTM.create_returnn_layer_dict lstm3 "in0" (some s) = .error .assertionError) ∧
     ∃ sub, LSTM.create_returnn_layer_dict lstm3 "in0" none
        = .ok { klass := "subnetwork", unit := none, fromName := "in0",
                n_out := none, initial_state := none, subnetwork := some sub } ∧
      sub.length = lstm3.num_layers + 1 ∧
      (∀ i, i < lstm3.num_layers → sub[i]? = some (s!"layer{i}",
          { klass := "rec", unit := some "nativelstm2",
            fromName := if i = 0 then "data" else s!"layer{i - 1}" })) ∧
      sub[lstm3.num_layers]? = some ("output",
          { klass := "copy", unit := none, fromName := s!"layer{lstm3.num_layers - 1}" })) ∧
    lstmSubnet 3 =
      [("layer0", { klass := "rec", unit := some "nativelstm2", fromName := "data" }),
       ("layer1", { klass := "rec", unit := some "nativelstm2", fromName := "layer0" }),
       ("layer2", { klass := "rec", unit := some "nativelstm2", fromName := "layer1" }),
       ("output", { klass := "copy", unit := none, fromName := "layer2" })] := by
  exact ⟨rfl, by decide, C2_multilayer_lowering lstm3 "in0" rfl (by decide), by decide⟩


/-- `check_hidden_size` passes exactly on the expected shape. -/
theorem check_hidden_size_ok_iff (m : RNNBase) (hx : Tensor)
    (e : Nat × Nat × Nat) (tag : String) :
    m.check_hidden_size hx e tag = .ok () ↔ hx.shape = [e.1, e.2.1, e.2.2] := by
  unfold RNNBase.check_hidden_size
  split <;> simp_all

/-- `check_hidden_size` reports the expected and the actual shape. -/
theorem check_hidden_size_err (m : RNNBase) (hx : Tensor)
    (e : Nat × Nat × Nat) (tag : String) (h : hx.shape ≠ [e.1, e.2.1, e.2.2]) :
    m.check_hidden_size hx e tag = .error (.hiddenSizeError tag e hx.shape) := by
  unfold RNNBase.check_hidden_size
  rw [if_pos h]

/-- With the input accepted, the base forward check reduces to the hidden
size check. -/
theorem base_cfa_input_ok (m : RNNBase) (input h0 : Tensor)
    (bs : Option (List Nat)) (hok : m.check_input input bs = .ok ()) :
    RNNBase.check_forward_args m input h0 bs
      = m.check_hidden_size h0 (m.get_expected_hidden_size input bs) "" := by
  unfold RNNBase.check_forward_args
  rw [hok]

/-- With the input accepted, the LSTM forward check reduces to the two
hidden size checks in order. -/
theorem lstm_cfa_input_ok (m : RNNBase) (input h0 h1 : Tensor)
    (bs : Option (List Nat)) (hok : m.check_input input bs = .ok ()) :
    LSTM.check_forward_args m input (h0, h1) bs
      = match m.check_hidden_size h0 (m.get_expected_hidden_size input bs) "[0]" with
        | .error er => .error er
        | .ok _ => m.check_hidden_size h1 (m.get_expected_hidden_size input bs) "[1]" := by
  unfold LSTM.check_forward_args
  rw [hok]

/-- C4: the recurrent forward-argument validation.  (1) With a batch-size
side channel the input must have rank 2, without one rank 3; a mismatch
raises the error carrying both the expected and the actual rank (both in the
LSTM and the base check).  (2) The trailing dimension must equal the
configured `input_size`; a mismatch raises the error carrying both values.
(3) Once the input is accepted, the expected hidden shape is
`(num_layers * num_directions, batch, hidden_size)`; the base check passes
iff the hidden state has exactly that shape, the LSTM check passes iff both
the hidden and the cell state have exactly that shape, and each mismatch
raises the error carrying the expected and the actual shape.  (4) Hence an
LSTM hidden-state/cell-state pair of differing shapes is always rejected. -/
theorem C4_forward_args_validation (m : RNNBase) (input h0 h1 : Tensor)
    (batch_sizes : Option (List Nat)) :
    (input.dim ≠ (if batch_sizes.isSome then 2 else 3) →
      LSTM.check_forward_args m input (h0, h1) batch_sizes
        = .error (.inputDimError (if batch_sizes.isSome then 2 else 3) input.dim) ∧
      RNNBase.check_forward_args m input h0 batch_sizes
        = .error (.inputDimError (if batch_sizes.isSome then 2 else 3) input.dim)) ∧
    (input.dim = (if batch_sizes.isSome then 2 else 3) →
     m.input_size ≠ input.sizeLast →
      LSTM.check_forward_args m input (h0, h1) batch_sizes
        = .error (.inputSizeError m.input_size input.sizeLast)) ∧
    (m.check_input input batch_sizes = .ok () →
      ((m.get_expected_hidden_size input batch_sizes).1
          = m.num_layers * numDirections m.bidirectional ∧
       (m.get_expected_hidden_size input batch_sizes).2.2 = m.hidden_size ∧
       (RNNBase.check_forward_args m input h0 batch_sizes = .ok () ↔
          h0.shape = expectedHiddenList m input batch_sizes) ∧
       (LSTM.check_forward_args m input (h0, h1) batch_sizes = .ok () ↔
          h0.shape = expectedHiddenList m input batch_sizes ∧
          h1.shape = expectedHiddenList m input batch_sizes) ∧
       (h0.shape ≠ expectedHiddenList m input batch_sizes →
          LSTM.check_forward_args m input (h0, h1) batch_sizes
            = .error (.hiddenSizeError "[0]"
                (m.get_expected_hidden_size input batch_sizes) h0.shape)) ∧
       (h0.shape = expectedHiddenList m input batch_sizes →
        h1.shape ≠ expectedHiddenList m input batch_sizes →
          LSTM.check_forward_args m input (h0, h1) batch_sizes
            = .error (.hiddenSizeError "[1]"
                (m.get_expected_hidden_size input batch_sizes) h1.shape)))) ∧
    (h0.shape ≠ h1.shape →
      LSTM.check_forward_args m input (h0, h1) batch_sizes ≠ .ok ()) := by
  refine ⟨?_, ?_, ?_, ?_⟩
  · intro hd
    have hci : m.check_input input batch_sizes
        = .error (.inputDimError (if batch_sizes.isSome then 2 else 3) input.dim) := by
      simp only [RNNBase.check_input]
      rw [if_pos hd]
    constructor
    · unfold LSTM.check_forward_args
      rw [hci]
    · unfold RNNBase.check_forward_args
      rw [hci]
  · intro hd hs
    have hci : m.check_input input batch_sizes
        = .error (.inputSizeError m.input_size input.sizeLast) := by
      simp only [RNNBase.check_input]
      rw [if_neg (not_ne_iff.mpr hd), if_pos hs]
    unfold LSTM.check_forward_args
    rw [hci]
  · intro hok
    refine ⟨rfl, rfl, ?_, ?_, ?_, ?_⟩
    · rw [base_cfa_input_ok m input h0 batch_sizes hok]
      exact check_hidden_size_ok_iff m h0 _ ""
    · rw [lstm_cfa_input_ok m input h0 h1 batch_sizes hok]
      by_cases hsh0 : h0.shape = expectedHiddenList m input batch_sizes
      · rw [(check_hidden_size_ok_iff m h0 _ "[0]").mpr hsh0]
        show m.check_hidden_size h1 (m.get_expected_hidden_size input batch_sizes) "[1]"
            = .ok () ↔ _
        rw [check_hidden_size_ok_iff]
        simp [hsh0, expectedHiddenList]
      · rw [check_hidden_size_err m h0 _ "[0]" hsh0]
        show Except.error (PyError.hiddenSizeError "[0]"
            (m.get_expected_hidden_size input batch_sizes) h0.shape) = .ok () ↔ _
        simp [hsh0]
    · intro hsh0
      rw [lstm_cfa_input_ok m input h0 h1 batch_sizes hok,
        check_hidden_size_err m h0 _ "[0]" hsh0]
    · intro hsh0 hsh1
      rw [lstm_cfa_input_ok m input h0 h1 batch_sizes hok,
        (check_hidden_size_ok_iff m h0 _ "[0]").mpr hsh0,
        check_hidden_size_err m h1 _ "[1]" hsh1]
  · intro hne hok
    cases hci : m.check_input input batch_sizes with
    | error e =>
        unfold LSTM.check_forward_args at hok
        rw [hci] at hok
        exact absurd hok (by simp)
    | ok u =>
        cases u
        rw [lstm_cfa_input_ok m input h0 h1 batch_sizes hci] at hok
        by_cases hsh0 : h0.shape = expectedHiddenList m input batch_sizes
        · rw [(check_hidden_size_ok_iff m h0 _ "[0]").mpr hsh0] at hok
          have hok1 : m.check_hidden_size h1
              (m.get_expected_hidden_size input batch_sizes) "[1]" = .ok () := hok
          have hsh1 : h1.shape = expectedHiddenList m input batch_sizes :=
            (check_hidden_size_ok_iff m h1 _ "[1]").mp hok1
          exact hne (hsh0.trans hsh1.symm)
        · rw [check_hidden_size_err m h0 _ "[0]" hsh0] at hok
          exact absurd hok (by simp)


/-- C4 witness: the theorem applied at a concrete module and input, plus the
evaluated outcomes: an accepted pair, a rejected differing pair with the
error naming expected shape `(2, 3, 5)` and actual shape `[2, 3, 6]`, and a
rank error naming expected rank 3 and actual rank 2. -/
theorem C4_forward_args_validation_witness :
    ((Tensor.mk [7, 3, 4]).dim ≠ (if (none : Option (List Nat)).isSome then 2 else 3) →
      LSTM.check_forward_args lstm4 (Tensor.mk [7, 3, 4])
          (Tensor.mk [2, 3, 5], Tensor.mk [2, 3, 6]) none
        = .error (.inputDimError (if (none : Option (List Nat)).isSome then 2 else 3)
            (Tensor.mk [7, 3, 4]).dim) ∧
      RNNBase.check_forward_args lstm4 (Tensor.mk [7, 3, 4]) (Tensor.mk [2, 3, 5]) none
        = .error (.inputDimError (if (none : Option (List Nat)).isSome then 2 else 3)
            (Tensor.mk [7, 3, 4]).dim)) ∧
    ((Tensor.mk [7, 3, 4]).dim = (if (none : Option (List Nat)).isSome then 2 else 3) →
     lstm4.input_size ≠ (Tensor.mk [7, 3, 4]).sizeLast →
      LSTM.check_forward_args lstm4 (Tensor.mk [7, 3, 4])
          (Tensor.mk [2, 3, 5], Tensor.mk [2, 3, 6]) none
        = .error (.inputSizeError lstm4.input_size (Tensor.mk [7, 3, 4]).sizeLast)) ∧
    (lstm4.check_input (Tensor.mk [7, 3, 4]) none = .ok () →
      ((lstm4.get_expected_hidden_size (Tensor.mk [7, 3, 4]) none).1
          = lstm4.num_layers * numDirections lstm4.bidirectional ∧
       (lstm4.get_expected_hidden_size (Tensor.mk [7, 3, 4]) none).2.2 = lstm4.hidden_size ∧
       (RNNBase.check_forward_args lstm4 (Tensor.mk [7, 3, 4]) (Tensor.mk [2, 3, 5]) none
          = .ok () ↔
          (Tensor.mk [2, 3, 5]).shape = expectedHiddenList lstm4 (Tensor.mk [7, 3, 4]) none) ∧
       (LSTM.check_forward_args lstm4 (Tensor.mk [7, 3, 4])
            (Tensor.mk [2, 3, 5], Tensor.mk [2, 3, 6]) none = .ok () ↔
          (Tensor.mk [2, 3, 5]).shape = expectedHiddenList lstm4 (Tensor.mk [7, 3, 4]) none ∧
          (Tensor.mk [2, 3, 6]).shape = expectedHiddenList lstm4 (Tensor.mk [7, 3, 4]) none) ∧
       ((Tensor.mk [2, 3, 5]).shape ≠ expectedHiddenList lstm4 (Tensor.mk [7, 3, 4]) none →
          LSTM.check_forward_args lstm4 (Tensor.mk [7, 3, 4])
              (Tensor.mk [2, 3, 5], Tensor.mk [2, 3, 6]) none
            = .error (.hiddenSizeError "[0]"
                (lstm4.get_expected_hidden_size (Tensor.mk [7, 3, 4]) none)
                (Tensor.mk [2, 3, 5]).shape)) ∧
       ((Tensor.mk [2, 3, 5]).shape = expectedHiddenList lstm4 (Tensor.mk [7, 3, 4]) none →
        (Tensor.mk [2, 3, 6]).shape ≠ expectedHiddenList lstm4 (Tensor.mk [7, 3, 4]) none →
          LSTM.check_forward_args lstm4 (Tensor.mk [7, 3, 4])
              (Tensor.mk [2, 3, 5], Tensor.mk [2, 3, 6]) none
            = .error (.hiddenSizeError "[1]"
                (lstm4.get_expected_hidden_size (Tensor.mk [7, 3, 4]) none)
                (Tensor.mk [2, 3, 6]).shape)))) ∧
    ((Tensor.mk [2, 3, 5]).shape ≠ (Tensor.mk [2, 3, 6]).shape →
      LSTM.check_forward_args lstm4 (Tensor.mk [7, 3, 4])
          (Tensor.mk [2, 3, 5], Tensor.mk [2, 3, 6]) none ≠ .ok ()) ∧
    LSTM.check_forward_args lstm4 (Tensor.mk [7, 3, 4])
        (Tensor.mk [2, 3, 5], Tensor.mk [2, 3, 5]) none = .ok () ∧
    LSTM.check_forward_args lstm4 (Tensor.mk [7, 3, 4])
        (Tensor.mk [2, 3, 5], Tensor.mk [2, 3, 6]) none
      = .error (.hiddenSizeError "[1]" (2, 3, 5) [2, 3, 6]) ∧
    LSTM.check_forward_args lstm4 (Tensor.mk [3, 4])
        (Tensor.mk [2, 3, 5], Tensor.mk [2, 3, 5]) none
      = .error (.inputDimError 3 2) := by
  obtain ⟨a, b, c, d⟩ :=
    C4_forward_args_validation lstm4 (Tensor.mk [7, 3, 4])
      (Tensor.mk [2, 3, 5]) (Tensor.mk [2, 3, 6]) none
  exact ⟨a, b, c, d, by decide, by decide, by decide⟩

/-- C6: with a numeric `dropout` argument, construction raises the dropout
range `ValueError` (the spec's `ConfigurationError`) exactly when the value
lies outside `[0, 1]`; with dropout in `(0, 1]`, a single layer and a
recognized mode, construction instead completes normally, emitting exactly
the advisory single-layer-dropout warning. -/
theorem C6_dropout_validation (mode : String) (input_size hidden_size num_layers : Nat)
    (bias batch_first bidirectional : Bool) (q : ℚ) :
    (RNNBase.init mode input_size hidden_size num_layers bias batch_first
        (.num q) bidirectional = .error .dropoutRangeError ↔ q < 0 ∨ 1 < q) ∧
    (0 < q → q ≤ 1 → num_layers = 1 →
      ∀ gs, gateSizeOfMode mode hidden_size = some gs →
        ∃ r, RNNBase.init mode input_size hidden_size num_layers bias batch_first
              (.num q) bidirectional = .ok r ∧
          r.warnings = [dropoutWarning q 1]) := by
  constructor
  · constructor
    · intro h
      by_contra hc
      push_neg at hc
      have hinv : DropoutVal.invalid (.num q) = false := by
        simp only [DropoutVal.invalid, Bool.or_eq_false_iff, decide_eq_false_iff_not, not_lt]
        exact ⟨hc.1, hc.2⟩
      unfold RNNBase.init at h
      rw [hinv] at h
      simp only [Bool.false_eq_true, if_false] at h
      cases hg : gateSizeOfMode mode hidden_size <;> rw [hg] at h <;> simp at h
    · intro h
      have hinv : DropoutVal.invalid (.num q) = true := by
        rcases h with h | h <;> simp [DropoutVal.invalid, h]
      unfold RNNBase.init
      rw [hinv]
      simp
  · intro h0 h1 hnl gs hgs
    subst hnl
    have hinv : DropoutVal.invalid (.num q) = false := by
      simp only [DropoutVal.invalid, Bool.or_eq_false_iff, decide_eq_false_iff_not, not_lt]
      exact ⟨le_of_lt h0, h1⟩
    unfold RNNBase.init
    rw [hinv]
    simp only [Bool.false_eq_true, if_false, hgs]
    split
    · exact ⟨_, rfl, rfl⟩
    · next hcond => exact absurd ⟨by simpa [DropoutVal.toFloat] using h0, trivial⟩ hcond

/-- C6 witness: the theorem applied at `dropout = 1/2`, `num_layers = 1`,
mode `LSTM`; plus the concrete rejection at `dropout = -1/10`. -/
theorem C6_dropout_validation_witness :
    ((RNNBase.init "LSTM" 2 3 1 true false (.num (1 / 2)) false
        = .error .dropoutRangeError ↔ (1 / 2 : ℚ) < 0 ∨ 1 < (1 / 2 : ℚ)) ∧
     (0 < (1 / 2 : ℚ) → (1 / 2 : ℚ) ≤ 1 → 1 = 1 →
      ∀ gs, gateSizeOfMode "LSTM" 3 = some gs →
        ∃ r, RNNBase.init "LSTM" 2 3 1 true false (.num (1 / 2)) false = .ok r ∧
          r.warnings = [dropoutWarning (1 / 2) 1])) ∧
    RNNBase.init "LSTM" 2 3 1 true false (.num (mkRat (-1) 10)) false
      = .error .dropoutRangeError := by
  exact ⟨C6_dropout_validation "LSTM" 2 3 1 true false false (1 / 2), by decide⟩

/-- C5: for every successfully constructed recurrent module, the mode is one
of `LSTM`/`GRU`/`RNN_TANH`/`RNN_RELU` with `gate_size` equal to 4/3/1/1
times `hidden_size` respectively; the registered parameters come in one
group per layer per direction (in loop order), the group of
`(layer, direction)` sitting at index `layer * num_directions + direction`;
each group holds the input weight of shape `(gate_size, layer_input_size)`,
the hidden weight of shape `(gate_size, hidden_size)` and — exactly when
`bias` is enabled — the two bias vectors of shape `(gate_size,)`, so the
group has 4 registered parameters with bias and 2 without;
`layer_input_size` is `input_size` for layer 0 and
`hidden_size * num_directions` afterwards.  Any other mode string is
rejected at construction with the `Unrecognized RNN mode` error. -/
theorem C5_parameter_shapes (mode : String) (input_size hidden_size num_layers : Nat)
    (bias batch_first : Bool) (dv : DropoutVal) (bidirectional : Bool) :
    (∀ r, RNNBase.init mode input_size hidden_size num_layers bias batch_first
          dv bidirectional = .ok r →
      ∃ gs, gateSizeOfMode mode hidden_size = some gs ∧
        ((mode = "LSTM" ∧ gs = 4 * hidden_size) ∨
         (mode = "GRU" ∧ gs = 3 * hidden_size) ∨
         (mode = "RNN_TANH" ∧ gs = 1 * hidden_size) ∨
         (mode = "RNN_RELU" ∧ gs = 1 * hidden_size)) ∧
        r.paramGroups.length = num_layers * numDirections bidirectional ∧
        (∀ layer direction, layer < num_layers → direction < numDirections bidirectional →
          ∃ g, r.paramGroups[layer * numDirections bidirectional + direction]? = some g ∧
            g = paramGroup gs
                  (layer_input_size input_size hidden_size (numDirections bidirectional) layer)
                  hidden_size layer direction bias ∧
            g.length = (if bias then 4 else 2) ∧
            g.map Prod.snd =
              (if bias then
                [[gs, layer_input_size input_size hidden_size (numDirections bidirectional) layer],
                 [gs, hidden_size], [gs], [gs]]
               else
                [[gs, layer_input_size input_size hidden_size (numDirections bidirectional) layer],
                 [gs, hidden_size]]))) ∧
    (dv.invalid = false → gateSizeOfMode mode hidden_size = none →
      RNNBase.init mode input_size hidden_size num_layers bias batch_first
          dv bidirectional = .error (.unrecognizedMode mode)) := by
  constructor
  · intro r hok
    unfold RNNBase.init at hok
    by_cases hinv : DropoutVal.invalid dv = true
    · rw [if_pos hinv] at hok
      exact absurd hok (by simp)
    · rw [if_neg hinv] at hok
      cases hgs : gateSizeOfMode mode hidden_size with
      | none =>
          rw [hgs] at hok
          exact absurd hok (by simp)
      | some gs =>
          rw [hgs] at hok
          have hr : r = ⟨⟨mode, input_size, hidden_size, num_layers, bias, batch_first,
              dv.toFloat, bidirectional⟩,
              if 0 < dv.toFloat ∧ num_layers = 1
                then [dropoutWarning dv.toFloat num_layers] else [],
              ((List.range num_layers).map (fun layer =>
                (List.range (numDirections bidirectional)).map (fun direction =>
                  paramGroup gs
                    (layer_input_size input_size hidden_size (numDirections bidirectional) layer)
                    hidden_size layer direction bias))).flatten⟩ := by
            cases hok
            rfl
          refine ⟨gs, rfl, ?_, ?_, ?_⟩
          · unfold gateSizeOfMode at hgs
            split at hgs
            · next h => exact Or.inl ⟨h, (Option.some.inj hgs).symm⟩
            · split at hgs
              · next h => exact Or.inr (Or.inl ⟨h, (Option.some.inj hgs).symm⟩)
              · split at hgs
                · next h =>
                    exact Or.inr (Or.inr (Or.inl ⟨h, by
                      rw [← Option.some.inj hgs, one_mul]⟩))
                · split at hgs
                  · next h =>
                      exact Or.inr (Or.inr (Or.inr ⟨h, by
                        rw [← Option.some.inj hgs, one_mul]⟩))
                  · exact absurd hgs (by simp)
          · rw [hr]
            simp only [List.length_flatten, List.map_map]
            have hmap : ((List.range num_layers).map
                (List.length ∘ fun layer =>
                  (List.range (numDirections bidirectional)).map (fun direction =>
                    paramGroup gs
                      (layer_input_size input_size hidden_size (numDirections bidirectional) layer)
                      hidden_size layer direction bias)))
                = List.replicate num_layers (numDirections bidirectional) := by
              refine List.eq_replicate_iff.mpr ⟨by simp, ?_⟩
              intro x hx
              obtain ⟨layer, _, hxl⟩ := List.mem_map.mp hx
              simp [← hxl]
            rw [hmap, List.sum_replicate, smul_eq_mul]
          · intro layer direction hl hd
            refine ⟨paramGroup gs
                (layer_input_size input_size hidden_size (numDirections bidirectional) layer)
                hidden_size layer direction bias, ?_, rfl, ?_, ?_⟩
            · rw [hr]
              have houter : ((List.range num_layers).map (fun layer =>
                  (List.range (numDirections bidirectional)).map (fun direction =>
                    paramGroup gs
                      (layer_input_size input_size hidden_size (numDirections bidirectional) layer)
                      hidden_size layer direction bias)))[layer]?
                  = some ((List.range (numDirections bidirectional)).map (fun direction =>
                    paramGroup gs
                      (layer_input_size input_size hidden_size (numDirections bidirectional) layer)
                      hidden_size layer direction bias)) := by
                rw [List.getElem?_map, List.getElem?_range hl]
                rfl
              rw [flatten_getElem_eq (numDirections bidirectional) _
                  (by
                    intro l hm
                    obtain ⟨y, _, hyl⟩ := List.mem_map.mp hm
                    simp [← hyl])
                  layer direction hd _ houter]
              rw [List.getElem?_map, List.getElem?_range hd]
              rfl
            · cases bias <;> simp [paramGroup]
            · cases bias <;> simp [paramGroup]
  · intro hinv hnone
    unfold RNNBase.init
    rw [hinv]
    simp only [Bool.false_eq_true, if_false, hnone]


/-- C5 witness: the theorem applied at the concrete `gru2` construction and,
for the rejection half, at the unknown mode string `"QRNN"`. -/
theorem C5_parameter_shapes_witness :
    RNNBase.init "GRU" 4 3 2 false false (.num 0) true = .ok gru2 ∧
    gru2.paramGroups.length = 2 * numDirections true ∧
    gru2.paramGroups[1 * numDirections true + 1]?
      = some (paramGroup 9 (layer_input_size 4 3 (numDirections true) 1) 3 1 1 false) ∧
    (DropoutVal.num 0).invalid = false ∧
    gateSizeOfMode "QRNN" 3 = none ∧
    RNNBase.init "QRNN" 4 3 2 false false (.num 0) true
      = .error (.unrecognizedMode "QRNN") := by
  have hok : RNNBase.init "GRU" 4 3 2 false false (.num 0) true = .ok gru2 := by decide
  obtain ⟨gs, hgs, hmodes, hlen, hgroups⟩ :=
    (C5_parameter_shapes "GRU" 4 3 2 false false (.num 0) true).1 gru2 hok
  have hgs9 : gs = 9 := by
    have : some gs = some 9 := by rw [← hgs]; decide
    simpa using this
  subst hgs9
  obtain ⟨g, hg, hgdef, _, _⟩ := hgroups 1 1 (by decide) (by decide)
  exact ⟨hok, hlen, by rw [hg, hgdef], by decide, by decide,
    (C5_parameter_shapes "QRNN" 4 3 2 false false (.num 0) true).2 (by decide) (by decide)⟩

/-- C10: constructing any recurrent module with a Python boolean `dropout`
argument raises the dropout range error — although both booleans lie within
`[0, 1]` as numbers — because of the explicit `isinstance(dropout, bool)`
test; in particular `dropout=False` is rejected rather than treated as
dropout `0`. -/
theorem C10_bool_dropout_rejected (b : Bool) (mode : String)
    (input_size hidden_size num_layers : Nat)
    (bias batch_first bidirectional : Bool) :
    RNNBase.init mode input_size hidden_size num_layers bias batch_first
        (.bool b) bidirectional = .error .dropoutRangeError ∧
    0 ≤ (DropoutVal.bool b).toFloat ∧ (DropoutVal.bool b).toFloat ≤ 1 := by
  refine ⟨rfl, ?_, ?_⟩ <;> cases b <;> norm_num [DropoutVal.toFloat]

/-- C10 witness: the theorem applied at `dropout = False`. -/
theorem C10_bool_dropout_rejected_witness :
    RNNBase.init "LSTM" 2 3 1 true false (.bool false) false
        = .error .dropoutRangeError ∧
    0 ≤ (DropoutVal.bool false).toFloat ∧ (DropoutVal.bool false).toFloat ≤ 1 := by
  exact C10_bool_dropout_rejected false "LSTM" 2 3 1 true false false


/-- C7 (counterexample): with reference output `[1]` (shape `[1]`) and Stage
B output `[1 + 1e-8]` — same shape, different value — the Stage B check
passes, so the orchestrator does not require Stage B's output to be exactly
equal to Stage A's: it only checks numpy's default `assert_allclose`
tolerance (relative `1e-7`). -/
theorem C7_stageB_accepts_nonidentical_output :
    Converter.run_traced_orig_torch
        (mkEnv ⟨[1], [1]⟩ ⟨[1], [1 + mkRat 1 100000000]⟩ ⟨[], []⟩ [] (fun _ _ => ⟨[], []⟩))
        ⟨some ⟨[1], [1]⟩, none, none, none⟩
      = .ok ⟨some ⟨[1], [1]⟩, none, none, none⟩ ∧
    (NDArr.mk [1] [1 + mkRat 1 100000000]) ≠ (NDArr.mk [1] [1]) := by
  have hmk : mkRat 1 100000000 = (1 / 100000000 : ℚ) := by
    rw [Rat.mkRat_eq_div]
    push_cast
    ring
  have hclose : allcloseB 0 defaultRtol (NDArr.mk [1] [1])
      (NDArr.mk [1] [1 + mkRat 1 100000000]) = true := by
    refine (allcloseB_eq_true_iff _ _ _ _).mpr ⟨rfl, rfl, ?_⟩
    intro k hk
    have hk0 : k = 0 := by simpa using hk
    subst hk0
    simp only [List.getD_cons_zero]
    rw [defaultRtol_eq, hmk,
      show (1 : ℚ) - (1 + 1 / 100000000) = -(1 / 100000000) by ring, abs_neg,
      abs_of_nonneg (show (0 : ℚ) ≤ 1 / 100000000 by norm_num),
      abs_of_nonneg (show (0 : ℚ) ≤ 1 + 1 / 100000000 by norm_num)]
    norm_num
  constructor
  · unfold Converter.run_traced_orig_torch
    simp only [mkEnv]
    rw [if_neg (by decide)]
    simp [hclose]
  · intro h
    have hd : (1 : ℚ) + mkRat 1 100000000 = 1 := by
      have hdata := congrArg NDArr.data h
      simpa using hdata
    rw [hmk] at hd
    norm_num at hd

/-- C7 (amended): when Stage A has run, the orchestrator requires Stage B's
output to have the same shape as Stage A's (aborting with the assertion
error otherwise) and to agree with it within numpy's default
`assert_allclose` tolerances — relative `1e-7`, absolute `0` — not
bit-identically; divergence beyond that tolerance aborts with the numeric
divergence error.  When Stage A is skipped, Stage B's output is installed
as the reference for all later comparisons. -/
theorem C7_stageB_check (env : ConvEnv) (st : ConvState) :
    (∀ ref, st.out_ref_np = some ref →
      ((ref.shape ≠ env.wrappedOut.shape →
          Converter.run_traced_orig_torch env st = .error .assertionError) ∧
       (ref.shape = env.wrappedOut.shape →
          ((Converter.run_traced_orig_torch env st = .ok st ↔
              AllClose 0 defaultRtol ref env.wrappedOut) ∧
           (¬ AllClose 0 defaultRtol ref env.wrappedOut →
              Converter.run_traced_orig_torch env st = .error .allcloseError))))) ∧
    (st.out_ref_np = none →
      Converter.run_traced_orig_torch env st
        = .ok { st with out_ref_np := some env.wrappedOut }) ∧
    defaultRtol = 1 / 10 ^ 7 := by
  refine ⟨?_, ?_, defaultRtol_eq⟩
  · intro ref href
    constructor
    · intro hsh
      unfold Converter.run_traced_orig_torch
      rw [href]
      simp only [if_pos hsh]
    · intro hsh
      have hred : Converter.run_traced_orig_torch env st
          = if allcloseB 0 defaultRtol ref env.wrappedOut then .ok st
            else .error .allcloseError := by
        unfold Converter.run_traced_orig_torch
        rw [href]
        simp only [if_neg (not_ne_iff.mpr hsh)]
      constructor
      · rw [hred]
        by_cases hc : allcloseB 0 defaultRtol ref env.wrappedOut
        · rw [if_pos hc]
          exact ⟨fun _ => (allcloseB_eq_true_iff 0 defaultRtol ref env.wrappedOut).mp hc,
            fun _ => rfl⟩
        · rw [if_neg hc]
          exact ⟨fun h => absurd h (by simp),
            fun h => absurd ((allcloseB_eq_true_iff 0 defaultRtol ref env.wrappedOut).mpr h) hc⟩
      · intro h
        have hc : allcloseB 0 defaultRtol ref env.wrappedOut = false := by
          cases hcv : allcloseB 0 defaultRtol ref env.wrappedOut
          · rfl
          · exact absurd ((allcloseB_eq_true_iff 0 defaultRtol ref env.wrappedOut).mp hcv) h
        rw [hred, hc]
        simp
  · intro href
    unfold Converter.run_traced_orig_torch
    rw [href]

/-- C7 witness: the amended theorem applied at a concrete environment in
which Stage B reproduces the reference exactly, and at one with no
reference, where Stage B's output is installed as the reference. -/
theorem C7_stageB_check_witness :
    ((∀ ref, (ConvState.mk (some ⟨[1], [2]⟩) none none none).out_ref_np = some ref →
      ((ref.shape ≠ (mkEnv ⟨[1], [2]⟩ ⟨[1], [2]⟩ ⟨[], []⟩ [] (fun _ _ => ⟨[], []⟩)).wrappedOut.shape →
          Converter.run_traced_orig_torch
            (mkEnv ⟨[1], [2]⟩ ⟨[1], [2]⟩ ⟨[], []⟩ [] (fun _ _ => ⟨[], []⟩))
            (ConvState.mk (some ⟨[1], [2]⟩) none none none) = .error .assertionError) ∧
       (ref.shape = (mkEnv ⟨[1], [2]⟩ ⟨[1], [2]⟩ ⟨[], []⟩ [] (fun _ _ => ⟨[], []⟩)).wrappedOut.shape →
          ((Converter.run_traced_orig_torch
              (mkEnv ⟨[1], [2]⟩ ⟨[1], [2]⟩ ⟨[], []⟩ [] (fun _ _ => ⟨[], []⟩))
              (ConvState.mk (some ⟨[1], [2]⟩) none none none)
              = .ok (ConvState.mk (some ⟨[1], [2]⟩) none none none) ↔
              AllClose 0 defaultRtol ref
                (mkEnv ⟨[1], [2]⟩ ⟨[1], [2]⟩ ⟨[], []⟩ [] (fun _ _ => ⟨[], []⟩)).wrappedOut) ∧
           (¬ AllClose 0 defaultRtol ref
                (mkEnv ⟨[1], [2]⟩ ⟨[1], [2]⟩ ⟨[], []⟩ [] (fun _ _ => ⟨[], []⟩)).wrappedOut →
              Converter.run_traced_orig_torch
                (mkEnv ⟨[1], [2]⟩ ⟨[1], [2]⟩ ⟨[], []⟩ [] (fun _ _ => ⟨[], []⟩))
                (ConvState.mk (some ⟨[1], [2]⟩) none none none)
                = .error .allcloseError))))) ∧
     ((ConvState.mk (some ⟨[1], [2]⟩) none none none).out_ref_np = none →
        Converter.run_traced_orig_torch
          (mkEnv ⟨[1], [2]⟩ ⟨[1], [2]⟩ ⟨[], []⟩ [] (fun _ _ => ⟨[], []⟩))
          (ConvState.mk (some ⟨[1], [2]⟩) none none none)
          = .ok { ConvState.mk (some ⟨[1], [2]⟩) none none none with
                  out_ref_np := some (mkEnv ⟨[1], [2]⟩ ⟨[1], [2]⟩ ⟨[], []⟩ []
                    (fun _ _ => ⟨[], []⟩)).wrappedOut }) ∧
     defaultRtol = 1 / 10 ^ 7) ∧
    Converter.run_traced_orig_torch
        (mkEnv ⟨[1], [2]⟩ ⟨[1], [2]⟩ ⟨[], []⟩ [] (fun _ _ => ⟨[], []⟩))
        (ConvState.mk none none none none)
      = .ok (ConvState.mk (some ⟨[1], [2]⟩) none none none) := by
  exact ⟨C7_stageB_check (mkEnv ⟨[1], [2]⟩ ⟨[1], [2]⟩ ⟨[], []⟩ [] (fun _ _ => ⟨[], []⟩))
      (ConvState.mk (some ⟨[1], [2]⟩) none none none), by decide⟩

/-- C8: in Stage C, when a Stage A/B reference exists, the RETURNN session
output is first transposed by the `AxisMapping` returned at output
registration and only then compared against the reference, with absolute
tolerance `stageTolerance = 1e-4` and relative tolerance exactly `0`; the
stage succeeds iff that comparison holds and aborts with the numeric
divergence error otherwise. -/
theorem C8_stageC_comparison (env : ConvEnv) (flags : ConvFlags) (st : ConvState)
    (ref : NDArr) (href : st.out_ref_np = some ref) :
    ((∃ st2, Converter.run_torch_returnn_drop_in env flags st = .ok st2) ↔
        AllClose stageTolerance 0 ref (npTranspose env.axisMap env.returnnOut)) ∧
    (¬ AllClose stageTolerance 0 ref (npTranspose env.axisMap env.returnnOut) →
        Converter.run_torch_returnn_drop_in env flags st = .error .allcloseError) ∧
    stageTolerance = 1 / 10 ^ 4 := by
  obtain ⟨oref, oret, ondict, ocp⟩ := st
  replace href : oref = some ref := href
  subst href
  refine ⟨?_, ?_, stageTolerance_eq⟩
  · constructor
    · rintro ⟨st2, hst2⟩
      by_contra hnc
      have hc : allcloseB stageTolerance 0 ref (npTranspose env.axisMap env.returnnOut)
          = false := by
        cases hcv : allcloseB stageTolerance 0 ref (npTranspose env.axisMap env.returnnOut)
        · rfl
        · exact absurd ((allcloseB_eq_true_iff _ _ _ _).mp hcv) hnc
      unfold Converter.run_torch_returnn_drop_in at hst2
      simp [hc] at hst2
    · intro h
      have hc := (allcloseB_eq_true_iff _ _ _ _).mpr h
      unfold Converter.run_torch_returnn_drop_in
      simp only [hc]
      cases hflag : flags.has_export_tf_checkpoint_save_path
          || flags.verify_returnn_standalone_model <;>
        simp [hflag]
  · intro h
    have hc : allcloseB stageTolerance 0 ref (npTranspose env.axisMap env.returnnOut)
        = false := by
      cases hcv : allcloseB stageTolerance 0 ref (npTranspose env.axisMap env.returnnOut)
      · rfl
      · exact absurd ((allcloseB_eq_true_iff _ _ _ _).mp hcv) h
    unfold Converter.run_torch_returnn_drop_in
    simp [hc]


/-- C8 witness: the theorem applied at `envC8` with the reference present;
additionally, the comparison on the UNtransposed output would fail (the
shapes differ), demonstrating that the transpose is what aligns the axis
orders before the comparison. -/
theorem C8_stageC_comparison_witness :
    (ConvState.mk (some ⟨[1, 2], [0, 7]⟩) none none none).out_ref_np
      = some ⟨[1, 2], [0, 7]⟩ ∧
    (((∃ st2, Converter.run_torch_returnn_drop_in envC8
          ⟨true, true, true, true, false, true⟩
          (ConvState.mk (some ⟨[1, 2], [0, 7]⟩) none none none) = .ok st2) ↔
        AllClose stageTolerance 0 ⟨[1, 2], [0, 7]⟩
          (npTranspose envC8.axisMap envC8.returnnOut)) ∧
     (¬ AllClose stageTolerance 0 ⟨[1, 2], [0, 7]⟩
          (npTranspose envC8.axisMap envC8.returnnOut) →
        Converter.run_torch_returnn_drop_in envC8
          ⟨true, true, true, true, false, true⟩
          (ConvState.mk (some ⟨[1, 2], [0, 7]⟩) none none none)
          = .error .allcloseError) ∧
     stageTolerance = 1 / 10 ^ 4) ∧
    npTranspose envC8.axisMap envC8.returnnOut = ⟨[1, 2], [0, 7]⟩ ∧
    allcloseB stageTolerance 0 ⟨[1, 2], [0, 7]⟩ envC8.returnnOut = false ∧
    AllClose stageTolerance 0 ⟨[1, 2], [0, 7]⟩
      (npTranspose envC8.axisMap envC8.returnnOut) := by
  have htr : npTranspose envC8.axisMap envC8.returnnOut = ⟨[1, 2], [0, 7]⟩ := by decide
  refine ⟨rfl,
    C8_stageC_comparison envC8 ⟨true, true, true, true, false, true⟩
      (ConvState.mk (some ⟨[1, 2], [0, 7]⟩) none none none) ⟨[1, 2], [0, 7]⟩ rfl,
    htr, allcloseB_of_shape_ne _ _ _ _ (by decide), ?_⟩
  rw [htr]
  exact (allcloseB_eq_true_iff _ _ _ _).mp
    (allcloseB_refl _ _ stageTolerance_nonneg le_rfl _)

/-- C9: Stage D's standalone execution is a function of exactly the captured
declarative net dict and the saved checkpoint (`env.standaloneRun nd cp` —
the network is reconstructed via `construct_from_dict` plus
`load_params_from_file`, with no other converter state involved); its result
is compared against Stage C's stored raw output — not against the Stage A/B
reference — with Stage C's tolerances (absolute `stageTolerance = 1e-4`,
relative `0`), aborting with the numeric divergence error on a violation;
and the outcome depends on nothing else in the converter state: any state
agreeing on the net dict, the checkpoint and Stage C's output (but, e.g.,
with an arbitrary different Stage A/B reference) yields the same outcome. -/
theorem C9_stageD_standalone (env : ConvEnv) (st : ConvState) (nd : NetDict)
    (cp : Checkpoint) (outC : NDArr)
    (h1 : st.returnn_net_dict = some nd) (h2 : st.tf_checkpoint = some cp)
    (h3 : st.out_returnn_np = some outC) :
    (Converter.run_returnn_standalone env st = .ok st ↔
        AllClose stageTolerance 0 outC (env.standaloneRun nd cp)) ∧
    (¬ AllClose stageTolerance 0 outC (env.standaloneRun nd cp) →
        Converter.run_returnn_standalone env st = .error .allcloseError) ∧
    (∀ st2 : ConvState, st2.returnn_net_dict = some nd →
        st2.tf_checkpoint = some cp → st2.out_returnn_np = some outC →
        (Converter.run_returnn_standalone env st2).isOk
          = (Converter.run_returnn_standalone env st).isOk) ∧
    stageTolerance = 1 / 10 ^ 4 := by
  have hred : ∀ stx : ConvState, stx.returnn_net_dict = some nd →
      stx.tf_checkpoint = some cp → stx.out_returnn_np = some outC →
      Converter.run_returnn_standalone env stx
        = if allcloseB stageTolerance 0 outC (env.standaloneRun nd cp) then .ok stx
          else .error .allcloseError := by
    intro stx k1 k2 k3
    unfold Converter.run_returnn_standalone
    rw [k1, k2, k3]
  refine ⟨?_, ?_, ?_, stageTolerance_eq⟩
  · rw [hred st h1 h2 h3]
    by_cases hc : allcloseB stageTolerance 0 outC (env.standaloneRun nd cp)
    · rw [if_pos hc]
      exact ⟨fun _ => (allcloseB_eq_true_iff _ _ _ _).mp hc, fun _ => rfl⟩
    · rw [if_neg hc]
      constructor
      · intro h
        exact absurd h (by simp)
      · intro h
        exact absurd ((allcloseB_eq_true_iff _ _ _ _).mpr h) hc
  · intro h
    have hc : allcloseB stageTolerance 0 outC (env.standaloneRun nd cp) = false := by
      cases hcv : allcloseB stageTolerance 0 outC (env.standaloneRun nd cp)
      · rfl
      · exact absurd ((allcloseB_eq_true_iff _ _ _ _).mp hcv) h
    rw [hred st h1 h2 h3, hc]
    simp
  · intro st2 k1 k2 k3
    rw [hred st h1 h2 h3, hred st2 k1 k2 k3]
    by_cases hc : allcloseB stageTolerance 0 outC (env.standaloneRun nd cp)
    · rw [if_pos hc, if_pos hc]
      rfl
    · rw [if_neg hc, if_neg hc]



/-- C9 witness: the theorem applied at the concrete Stage D scenario. -/
theorem C9_stageD_standalone_witness :
    stC9.returnn_net_dict = some [] ∧ stC9.tf_checkpoint = some [] ∧
    stC9.out_returnn_np = some ⟨[2], [3, 4]⟩ ∧
    ((Converter.run_returnn_standalone envC9 stC9 = .ok stC9 ↔
        AllClose stageTolerance 0 ⟨[2], [3, 4]⟩ (envC9.standaloneRun [] [])) ∧
     (¬ AllClose stageTolerance 0 ⟨[2], [3, 4]⟩ (envC9.standaloneRun [] []) →
        Converter.run_returnn_standalone envC9 stC9 = .error .allcloseError) ∧
     (∀ st2 : ConvState, st2.returnn_net_dict = some [] →
        st2.tf_checkpoint = some [] → st2.out_returnn_np = some ⟨[2], [3, 4]⟩ →
        (Converter.run_returnn_standalone envC9 st2).isOk
          = (Converter.run_returnn_standalone envC9 stC9).isOk) ∧
     stageTolerance = 1 / 10 ^ 4) ∧
    Converter.run_returnn_standalone envC9 stC9 = .ok stC9 := by
  have hcl : allcloseB stageTolerance 0 (NDArr.mk [2] [3, 4])
      (envC9.standaloneRun [] []) = true :=
    allcloseB_refl stageTolerance 0 stageTolerance_nonneg le_rfl ⟨[2], [3, 4]⟩
  exact ⟨rfl, rfl, rfl,
    C9_stageD_standalone envC9 stC9 [] [] ⟨[2], [3, 4]⟩ rfl rfl rfl,
    (C9_stageD_standalone envC9 stC9 [] [] ⟨[2], [3, 4]⟩ rfl rfl rfl).1.mpr
      ((allcloseB_eq_true_iff _ _ _ _).mp hcl)⟩

end P2R
